import Mathlib

/-
Shallow embedding of the render-call orchestration pipeline of
`src/index.ts` (the `renderElement` function of html2canvas with the
named-frame fast path).

External collaborators (bounds resolver, color parsing module, named-frame
cache `IframeStorage`, `DocumentCloner`, `FastModeCloner`, logging sink,
resource cache) are modelled abstractly as fields of an environment
record: `renderElement` only branches on the results it observes from
them, exactly as the source does.  The observable effects of one call
(creation and destruction of instance-scoped resources, the duplication
path taken, frame destruction, cache persistence) are recorded in an
event trace.
-/

namespace Html2Canvas

/-- Capture rectangle returned by the external bounds resolver
(`parseBounds` for a plain element, `parseDocumentSize` for the whole
document), destructured at line 52 of the source. -/
structure Rect where
  left : Int
  top : Int
  width : Int
  height : Int
deriving DecidableEq

/-- A hosting iframe, as stored in the named-frame cache or produced by
`DocumentCloner.toIFrame`.  `windowLive` models the liveness probe
`iframe.contentWindow !== null` of line 105; `fid` is an identity so the
theorems can speak about *which* frame an event concerns. -/
structure Frame where
  fid : Nat
  windowLive : Bool
deriving DecidableEq

/-- Observable events of one `renderElement` call, in program order:
`mintId` is the computation of `instanceName` (line 50); `createCache` is
`CacheStorage.create` (line 66, skipped when the caller supplies a cache);
`createLogger` is `Logger.create` (line 88); `fastCloneAttempt` is
`FastModeCloner.clone` (line 112); `fullClone` is
`documentCloner.cloneDocument()` (lines 120/127); `toIFrame` is
`documentCloner.toIFrame` (lines 124/131); `renderDone` is the completed
backend render (lines 177-197); `destroyFrame` is `DocumentCloner.destroy`
(line 200); `logDetachError` is the error log when destruction fails
(line 201); `saveIframe` is `IframeStorage.saveIframe` (line 207);
`destroyLogger` and `destroyCache` are `Logger.destroy` and
`CacheStorage.destroy` (lines 211-212). -/
inductive Ev where
  | mintId
  | createCache
  | createLogger
  | fastCloneAttempt
  | fullClone
  | toIFrame
  | renderDone
  | destroyFrame (fid : Nat)
  | logDetachError
  | saveIframe (name : String) (fid : Nat)
  | destroyLogger
  | destroyCache
deriving DecidableEq

/-- The ways a call can fail: the two synchronous precondition throws of
lines 40-48, the fast-clone throw of line 115, and the rejected promise of
line 135. -/
inductive RenderError where
  | notAttachedToDocument
  | notAttachedToWindow
  | fastCloneError
  | elementNotFoundInClone
deriving DecidableEq

deriving instance DecidableEq for Except

/-- The user-supplied options record (`Partial<Options>`), restricted to
the fields the orchestration branches on.  JavaScript distinguishes a key
that is absent from a key present with value `undefined`, and the spreads
`{...defaultOptions, ...resourceOptions, ...opts}` let a present key win
even when its value is `undefined`; so `removeContainer` is `none` when
the key is absent, `some none` when present as `undefined`, and
`some (some b)` when present as a boolean.  For `replaceSelector` and
`renderName` the merged value is only ever used through JavaScript
truthiness and as a string, so absent, `undefined` and `null` (which all
merge to a falsy non-string) collapse to `none`, and `some s` is a
supplied string.  `backgroundColor` is read directly from `opts`
(line 146): `none` is absent-or-`undefined`, `some none` is the explicit
`null`, `some (some s)` is a color string.  `userCache` models `opts.cache`
being supplied (line 66), `foreignObjectRendering` the merged backend
flag (line 177). -/
structure Opts where
  replaceSelector : Option String := none
  renderName : Option String := none
  backgroundColor : Option (Option String) := none
  removeContainer : Option (Option Bool) := none
  foreignObjectRendering : Bool := false
  userCache : Bool := false

/-- The call environment: everything `renderElement` observes from the DOM
and from its external collaborators.  `hasOwnerDocument` and
`hasDefaultView` model `element.ownerDocument` and
`ownerDocument.defaultView` being non-null (lines 38-48);
`isBodyElement` / `isHTMLElement` are the predicates of line 53;
`targetIsDocumentElement` is `element === ownerDocument.documentElement`
(line 151); `docElementExists` / `bodyExists` guard the computed-style
reads of lines 139-144 and `rootComputedBg` / `bodyComputedBg` are those
computed background colors, already parsed; `parseColor`, `isTransparent`
and `transparentColor` are the external color module (`parseColor`,
`isTransparent`, `COLORS.TRANSPARENT`); `documentRect` / `elementRect`
are the bounds resolver's two answers; `iframeCache` is the named-frame
cache state at entry (`IframeStorage.getIframe`); `fastCloneOk` is
whether `FastModeCloner.clone` resolves to a truthy result carrying a
cloned element (line 114); `fullCloneFindsElement` is whether
`documentCloner.clonedReferenceElement` is defined after a full clone
(lines 122/129, checked at line 134); `freshFrame` is the frame
`toIFrame` produces; `destroyOk` is the boolean returned by
`DocumentCloner.destroy` (line 200). -/
structure Env where
  hasOwnerDocument : Bool
  hasDefaultView : Bool
  isBodyElement : Bool
  isHTMLElement : Bool
  targetIsDocumentElement : Bool
  docElementExists : Bool
  bodyExists : Bool
  rootComputedBg : Nat
  bodyComputedBg : Nat
  parseColor : String → Nat
  isTransparent : Nat → Bool
  transparentColor : Nat
  documentRect : Rect
  elementRect : Rect
  iframeCache : String → Option Frame
  fastCloneOk : Bool
  fullCloneFindsElement : Bool
  freshFrame : Frame
  destroyOk : Bool

/-- JavaScript truthiness of a merged `string | null | undefined` option
value: only a non-empty string is truthy. -/
def truthyStr : Option String → Bool
  | some s => s != ""
  | none => false

/-- The value of `options.removeContainer` after the spread merge of
line 84: an absent key takes the default `true` (line 68); a key present
as `undefined` overwrites the default with `undefined` (`none`); an
explicit boolean wins. -/
def mergedRemoveContainer (o : Opts) : Option Bool :=
  match o.removeContainer with
  | none => some true
  | some v => v

/-- Lines 139-141: the document root's computed background, or the
transparent sentinel when there is no `documentElement`. -/
def documentBackgroundColor (env : Env) : Nat :=
  if env.docElementExists then env.rootComputedBg else env.transparentColor

/-- Lines 142-144: the body's computed background, or the transparent
sentinel when there is no `body`. -/
def bodyBackgroundColor (env : Env) : Nat :=
  if env.bodyExists then env.bodyComputedBg else env.transparentColor

/-- Lines 146-148: the base default background derived from
`opts.backgroundColor` alone — parse a string, the transparent sentinel
for the explicit `null`, opaque white `0xffffffff` when unset. -/
def defaultBackgroundColor (env : Env) (o : Opts) : Nat :=
  match o.backgroundColor with
  | some (some s) => env.parseColor s
  | some none => env.transparentColor
  | none => 4294967295

/-- Lines 150-157: the background cascade.  Only when the target element
is the document's root element are the document's and body's computed
backgrounds consulted. -/
def resolveBackgroundColor (env : Env) (o : Opts) : Nat :=
  if env.targetIsDocumentElement then
    if env.isTransparent (documentBackgroundColor env) then
      if env.isTransparent (bodyBackgroundColor env) then defaultBackgroundColor env o
      else bodyBackgroundColor env
    else documentBackgroundColor env
  else defaultBackgroundColor env o

/-- Result of the duplication phase: its event fragment, whether the fast
clone attempt failed (the throw of line 115), the hosting frame bound in
`container`, whether that frame was borrowed from the named-frame cache,
and whether a cloned element was produced (checked at line 134). -/
structure CloneRes where
  tr : List Ev
  fastFailed : Bool
  container : Frame
  borrowed : Bool
  cloneFound : Bool

/-- Lines 120-124 / 127-131: the full duplication path —
`cloneDocument()`, read `clonedReferenceElement`, then materialize a
fresh offscreen frame with `toIFrame` (which runs even when no cloned
reference element was found; the check happens only at line 134). -/
def fullClonePhase (env : Env) : CloneRes :=
  ⟨[Ev.fullClone, Ev.toIFrame], false, env.freshFrame, false, env.fullCloneFindsElement⟩

/-- Lines 102-132: the path choice.  The fast path is entered only when
`options.replaceSelector && options.renderName` is truthy (line 102), the
cache lookup returns an entry (line 103) and that entry's content window
is non-null (line 105).  On the fast path a successful
`FastModeCloner.clone` always carries a cloned element (the external
fast-duplication collaborator returns either `{clonedElement}` or a
failure sentinel); a falsy result is the throw of line 115. -/
def clonePhase (env : Env) (o : Opts) : CloneRes :=
  if truthyStr o.replaceSelector && truthyStr o.renderName then
    match o.renderName with
    | some name =>
      match env.iframeCache name with
      | some cached =>
        if cached.windowLive then
          if env.fastCloneOk then ⟨[Ev.fastCloneAttempt], false, cached, true, true⟩
          else ⟨[Ev.fastCloneAttempt], true, cached, true, false⟩
        else fullClonePhase env
      | none => fullClonePhase env
    | none => fullClonePhase env
  else fullClonePhase env

/-- Lines 50-88 in trace form: mint the run identity, create the resource
cache under it (unless the caller supplied one), create the logging
sink. -/
def preTrace (o : Opts) : List Ev :=
  [Ev.mintId] ++ (if o.userCache then [] else [Ev.createCache]) ++ [Ev.createLogger]

/-- Lines 199-203 in trace form: destroy the hosting frame exactly when
the merged `removeContainer` is `=== true`; when `DocumentCloner.destroy`
returns false, log the detach error. -/
def destroyTrace (env : Env) (o : Opts) (f : Frame) : List Ev :=
  if mergedRemoveContainer o = some true then
    Ev.destroyFrame f.fid :: (if env.destroyOk then [] else [Ev.logDetachError])
  else []

/-- Lines 206-208 in trace form: when `options.renderName` is truthy,
persist the hosting frame into the named-frame cache under that name. -/
def saveTrace (o : Opts) (f : Frame) : List Ev :=
  match o.renderName with
  | some name => if name = "" then [] else [Ev.saveIframe name f.fid]
  | none => []

/-- The named-frame cache state after the call: `IframeStorage.saveIframe`
(line 207) stores the hosting frame under the truthy render name,
everything else is unchanged. -/
def cacheAfterFun (env : Env) (o : Opts) (f : Frame) : String → Option Frame :=
  fun n =>
    match o.renderName with
    | some m => if m ≠ "" ∧ m = n then some f else env.iframeCache n
    | none => env.iframeCache n

/-- Result of one call: the settled promise, the event trace, the
named-frame cache afterwards, the hosting frame bound to `container` (and
whether it was borrowed from the cache), the capture rectangle chosen at
lines 52-53, and the resolved background color of lines 150-157. -/
structure Outcome where
  result : Except RenderError Unit
  trace : List Ev
  cacheAfter : String → Option Frame
  container : Option Frame
  containerBorrowed : Bool
  region : Option Rect
  bg : Option Nat

/-- Lines 37-213: the render-call orchestration.  Precondition throws
happen before any resource is created; the fast-clone throw (line 115)
and the missing-clone rejection (line 135) exit without running the
teardown of lines 199-212; on the success path the hosting frame is
destroyed when `options.removeContainer === true`, then persisted when
`options.renderName` is truthy, then the logging sink and resource cache
for the run identity are destroyed.  The backend render itself is the
external collaborator; its numeric render options do not influence the
control flow modelled here. -/
def renderElement (env : Env) (o : Opts) : Outcome :=
  if !env.hasOwnerDocument then
    ⟨Except.error RenderError.notAttachedToDocument, [], env.iframeCache, none, false, none, none⟩
  else if !env.hasDefaultView then
    ⟨Except.error RenderError.notAttachedToWindow, [], env.iframeCache, none, false, none, none⟩
  else
    let region := if env.isBodyElement || env.isHTMLElement then env.documentRect else env.elementRect
    let c := clonePhase env o
    if c.fastFailed then
      ⟨Except.error RenderError.fastCloneError, preTrace o ++ c.tr, env.iframeCache,
        some c.container, c.borrowed, some region, none⟩
    else if !c.cloneFound then
      ⟨Except.error RenderError.elementNotFoundInClone, preTrace o ++ c.tr, env.iframeCache,
        some c.container, c.borrowed, some region, none⟩
    else
      ⟨Except.ok (),
        preTrace o ++ c.tr ++ [Ev.renderDone] ++ destroyTrace env o c.container
          ++ saveTrace o c.container ++ [Ev.destroyLogger, Ev.destroyCache],
        cacheAfterFun env o c.container, some c.container, c.borrowed, some region,
        some (resolveBackgroundColor env o)⟩

/-- Recognizer for frame-destruction events. -/
def isDestroyFrameEv : Ev → Bool
  | .destroyFrame _ => true
  | _ => false

/-- A concrete call environment for instantiating the theorems: both
attachment preconditions hold, the named-frame cache holds a live frame
(id 7) under the name "cached", the root's computed background is opaque
(255), the body's is transparent (512), and every collaborator
succeeds; a full clone would materialize the fresh frame with id 1. -/
def baseEnv : Env where
  hasOwnerDocument := true
  hasDefaultView := true
  isBodyElement := false
  isHTMLElement := false
  targetIsDocumentElement := false
  docElementExists := true
  bodyExists := true
  rootComputedBg := 255
  bodyComputedBg := 512
  parseColor := fun s => s.length
  isTransparent := fun c => c % 256 == 0
  transparentColor := 0
  documentRect := ⟨0, 0, 800, 600⟩
  elementRect := ⟨10, 20, 30, 40⟩
  iframeCache := fun n => if n = "cached" then some ⟨7, true⟩ else none
  fastCloneOk := true
  fullCloneFindsElement := true
  freshFrame := ⟨1, true⟩
  destroyOk := true

/-- Empty user options: every field at its absent default. -/
def optsNone : Opts := {}

/-- User options qualifying for the fast path against `baseEnv`. -/
def optsFast : Opts := { replaceSelector := some "#sel", renderName := some "cached" }

/-- The concrete environment with a failing fast-clone collaborator. -/
def envFastFail : Env := { baseEnv with fastCloneOk := false }

/-- The concrete environment capturing the document's root element. -/
def envRoot : Env := { baseEnv with targetIsDocumentElement := true }

/-- The concrete environment capturing the body element. -/
def envBody : Env := { baseEnv with isBodyElement := true }

/-- The concrete environment whose target element is detached from any
document. -/
def envDetached : Env := { baseEnv with hasOwnerDocument := false }

/-- User options with the explicit `null` background. -/
def optsBgNull : Opts := { backgroundColor := some none }

/-- User options supplying only a render name. -/
def optsName : Opts := { renderName := some "fresh" }

/-- User options whose `removeContainer` key is present with value
`undefined`. -/
def optsRCundef : Opts := { removeContainer := some none }

/-- A call settles with `ok` exactly when both attachment preconditions
hold, the fast clone (when attempted) succeeded, and a cloned element was
found; in that case every component of the outcome is the success-path
one. -/
theorem renderElement_ok_spec (env : Env) (o : Opts)
    (hok : (renderElement env o).result = Except.ok ()) :
    env.hasOwnerDocument = true ∧ env.hasDefaultView = true ∧
    (clonePhase env o).fastFailed = false ∧ (clonePhase env o).cloneFound = true ∧
    renderElement env o = ⟨Except.ok (),
      preTrace o ++ (clonePhase env o).tr ++ [Ev.renderDone]
        ++ destroyTrace env o (clonePhase env o).container
        ++ saveTrace o (clonePhase env o).container ++ [Ev.destroyLogger, Ev.destroyCache],
      cacheAfterFun env o (clonePhase env o).container, some (clonePhase env o).container,
      (clonePhase env o).borrowed,
      some (if env.isBodyElement || env.isHTMLElement then env.documentRect else env.elementRect),
      some (resolveBackgroundColor env o)⟩ := by
  cases h1 : env.hasOwnerDocument <;> cases h2 : env.hasDefaultView <;>
    cases h3 : (clonePhase env o).fastFailed <;> cases h4 : (clonePhase env o).cloneFound <;>
      simp [renderElement, h1, h2, h3, h4] at hok ⊢

/-- The resolved background of a call, when one exists, is the
cascade value. -/
theorem renderElement_bg_some (env : Env) (o : Opts) (c : Nat)
    (h : (renderElement env o).bg = some c) : c = resolveBackgroundColor env o := by
  cases h1 : env.hasOwnerDocument <;> cases h2 : env.hasDefaultView <;>
    cases h3 : (clonePhase env o).fastFailed <;> cases h4 : (clonePhase env o).cloneFound <;>
      simp [renderElement, h1, h2, h3, h4] at h
  all_goals exact h.symm

/-- Membership in the resource-allocation fragment of the trace. -/
theorem mem_preTrace (o : Opts) (e : Ev) :
    e ∈ preTrace o ↔
      (e = Ev.mintId ∨ (o.userCache = false ∧ e = Ev.createCache) ∨ e = Ev.createLogger) := by
  cases hu : o.userCache <;> simp [preTrace, hu]

/-- Membership in the frame-destruction fragment of the trace. -/
theorem mem_destroyTrace (env : Env) (o : Opts) (f : Frame) (e : Ev) :
    e ∈ destroyTrace env o f ↔
      (mergedRemoveContainer o = some true ∧
        (e = Ev.destroyFrame f.fid ∨ (env.destroyOk = false ∧ e = Ev.logDetachError))) := by
  rcases hm : mergedRemoveContainer o with _ | b
  · simp [destroyTrace, hm]
  · cases b
    · simp [destroyTrace, hm]
    · cases hd : env.destroyOk <;> simp [destroyTrace, hm, hd]

/-- Membership in the cache-persistence fragment of the trace. -/
theorem mem_saveTrace (o : Opts) (f : Frame) (e : Ev) :
    e ∈ saveTrace o f ↔
      (∃ n, o.renderName = some n ∧ n ≠ "" ∧ e = Ev.saveIframe n f.fid) := by
  rcases hr : o.renderName with _ | n
  · simp [saveTrace, hr]
  · by_cases hn : n = "" <;> simp [saveTrace, hr, hn]

/-- The duplication phase emits either exactly the fast-clone attempt or
exactly the full clone followed by the frame materialization. -/
theorem clonePhase_tr_cases (env : Env) (o : Opts) :
    (clonePhase env o).tr = [Ev.fastCloneAttempt] ∨
    (clonePhase env o).tr = [Ev.fullClone, Ev.toIFrame] := by
  unfold clonePhase fullClonePhase
  rcases o.replaceSelector with _ | s <;> rcases o.renderName with _ | n <;> simp [truthyStr]
  by_cases hs : s = ""
  · simp [hs]
  · by_cases hn : n = ""
    · simp [hn]
    · rcases env.iframeCache n with _ | f
      · simp [hs, hn]
      · cases hw : f.windowLive
        · simp [hs, hn, hw]
        · cases hfo : env.fastCloneOk <;> simp [hs, hn, hw, hfo]

/-- The fast-clone attempt appears in the duplication phase's events
exactly when the source's fast-path qualification of lines 102-105
holds. -/
theorem fastAttempt_mem_clonePhase (env : Env) (o : Opts) :
    Ev.fastCloneAttempt ∈ (clonePhase env o).tr ↔
      ((∃ s, o.replaceSelector = some s ∧ s ≠ "") ∧
       (∃ n f, o.renderName = some n ∧ n ≠ "" ∧
          env.iframeCache n = some f ∧ f.windowLive = true)) := by
  unfold clonePhase fullClonePhase
  rcases hrs : o.replaceSelector with _ | s <;> rcases hrn : o.renderName with _ | n <;>
    simp [truthyStr, hrs, hrn]
  by_cases hs : s = ""
  · simp [hs]
  · by_cases hn : n = ""
    · simp [hs, hn]
    · rcases hc : env.iframeCache n with _ | f
      · simp [hs, hn, hc]
      · cases hw : f.windowLive
        · simp [hs, hn, hc, hw]
        · cases hfo : env.fastCloneOk <;> simp [hs, hn, hc, hw, hfo]

/-- Once the preconditions pass, the call's trace is the allocation
fragment followed by the duplication fragment, followed on the success
path by the render, teardown and persistence fragments. -/
theorem renderElement_trace_cases (env : Env) (o : Opts)
    (h1 : env.hasOwnerDocument = true) (h2 : env.hasDefaultView = true) :
    (renderElement env o).trace = preTrace o ++ (clonePhase env o).tr ∨
    (renderElement env o).trace = preTrace o ++ (clonePhase env o).tr ++ [Ev.renderDone]
      ++ destroyTrace env o (clonePhase env o).container
      ++ saveTrace o (clonePhase env o).container ++ [Ev.destroyLogger, Ev.destroyCache] := by
  cases h3 : (clonePhase env o).fastFailed <;> cases h4 : (clonePhase env o).cloneFound <;>
    simp [renderElement, h1, h2, h3, h4]

/-- A duplication event belongs to the call's trace exactly when the
duplication phase emitted it: the allocation, teardown and persistence
fragments never contain one. -/
theorem mem_trace_cloneEv (env : Env) (o : Opts) (e : Ev)
    (h1 : env.hasOwnerDocument = true) (h2 : env.hasDefaultView = true)
    (he : e = Ev.fastCloneAttempt ∨ e = Ev.fullClone ∨ e = Ev.toIFrame) :
    (e ∈ (renderElement env o).trace ↔ e ∈ (clonePhase env o).tr) := by
  rcases renderElement_trace_cases env o h1 h2 with ht | ht <;> rw [ht] <;>
    rcases he with rfl | rfl | rfl <;>
      simp [mem_preTrace, mem_destroyTrace, mem_saveTrace]

/-- When the fast-clone collaborator fails, an attempted fast path means
the duplication phase ended in the fast-clone failure, with only the
attempt in its events. -/
theorem clonePhase_fastFailed_of (env : Env) (o : Opts)
    (hm : Ev.fastCloneAttempt ∈ (clonePhase env o).tr)
    (hfail : env.fastCloneOk = false) :
    (clonePhase env o).fastFailed = true ∧ (clonePhase env o).tr = [Ev.fastCloneAttempt] := by
  obtain ⟨⟨s, hrs, hs⟩, n, f, hrn, hn, hc, hw⟩ := (fastAttempt_mem_clonePhase env o).mp hm
  unfold clonePhase fullClonePhase
  simp [truthyStr, hrs, hrn, hs, hn, hc, hw, hfail]

/-- A resolved background is only produced on the success path. -/
theorem renderElement_bg_isSome (env : Env) (o : Opts) (c : Nat)
    (h : (renderElement env o).bg = some c) :
    env.hasOwnerDocument = true ∧ env.hasDefaultView = true ∧
    (clonePhase env o).fastFailed = false ∧ (clonePhase env o).cloneFound = true := by
  cases h1 : env.hasOwnerDocument <;> cases h2 : env.hasDefaultView <;>
    cases h3 : (clonePhase env o).fastFailed <;> cases h4 : (clonePhase env o).cloneFound <;>
      simp [renderElement, h1, h2, h3, h4] at h
  simp

/-- C1: once the attachment preconditions pass, the fast duplication path
is attempted exactly when `replaceSelector` and `renderName` are both
supplied as usable (non-empty) strings, the named-frame cache holds an
entry for the render name, and that entry's hosting window is non-null;
in every other case the full duplication path is taken. -/
theorem fast_path_decision (env : Env) (o : Opts)
    (h1 : env.hasOwnerDocument = true) (h2 : env.hasDefaultView = true) :
    (Ev.fastCloneAttempt ∈ (renderElement env o).trace ↔
      ((∃ s, o.replaceSelector = some s ∧ s ≠ "") ∧
       (∃ n f, o.renderName = some n ∧ n ≠ "" ∧
          env.iframeCache n = some f ∧ f.windowLive = true))) ∧
    (Ev.fastCloneAttempt ∉ (renderElement env o).trace →
      Ev.fullClone ∈ (renderElement env o).trace) := by
  have hA := mem_trace_cloneEv env o Ev.fastCloneAttempt h1 h2 (Or.inl rfl)
  have hB := mem_trace_cloneEv env o Ev.fullClone h1 h2 (Or.inr (Or.inl rfl))
  constructor
  · rw [hA]
    exact fastAttempt_mem_clonePhase env o
  · intro hno
    rw [hB]
    rcases clonePhase_tr_cases env o with ht | ht
    · rw [hA, ht] at hno
      simp at hno
    · rw [ht]
      simp

/-- C2: when the fast path is attempted and the fast-clone attempt yields
no duplicated element, the call fails with the fast-clone error, and the
full duplication path (in-memory clone, frame materialization) is never
performed — nor does any rendering happen. -/
theorem fast_clone_failure_no_fallback (env : Env) (o : Opts)
    (hfast : Ev.fastCloneAttempt ∈ (renderElement env o).trace)
    (hfail : env.fastCloneOk = false) :
    (renderElement env o).result = Except.error RenderError.fastCloneError ∧
    Ev.fullClone ∉ (renderElement env o).trace ∧
    Ev.toIFrame ∉ (renderElement env o).trace ∧
    Ev.renderDone ∉ (renderElement env o).trace := by
  have h1 : env.hasOwnerDocument = true := by
    by_contra hh
    rw [Bool.not_eq_true] at hh
    simp [renderElement, hh] at hfast
  have h2 : env.hasDefaultView = true := by
    by_contra hh
    rw [Bool.not_eq_true] at hh
    simp [renderElement, h1, hh] at hfast
  have hm := (mem_trace_cloneEv env o Ev.fastCloneAttempt h1 h2 (Or.inl rfl)).mp hfast
  obtain ⟨hff, htr⟩ := clonePhase_fastFailed_of env o hm hfail
  refine ⟨?_, ?_, ?_, ?_⟩ <;>
    simp [renderElement, h1, h2, hff, htr, mem_preTrace]

/-- On the success path the outcome's background is the cascade value. -/
theorem renderElement_bg_of_flags (env : Env) (o : Opts)
    (h1 : env.hasOwnerDocument = true) (h2 : env.hasDefaultView = true)
    (h3 : (clonePhase env o).fastFailed = false)
    (h4 : (clonePhase env o).cloneFound = true) :
    (renderElement env o).bg = some (resolveBackgroundColor env o) := by
  simp [renderElement, h1, h2, h3, h4]

/-- C3: for a call whose target element is the document's root element
the resolved background follows the cascade: the root's computed
background when it is not transparent (the user option is ignored),
otherwise the body's computed background when that one is not
transparent, otherwise the base default derived from the user option. -/
theorem root_background_cascade (env : Env) (o : Opts) (c : Nat)
    (hroot : env.targetIsDocumentElement = true)
    (hbg : (renderElement env o).bg = some c) :
    (env.isTransparent (documentBackgroundColor env) = false →
      c = documentBackgroundColor env) ∧
    (env.isTransparent (documentBackgroundColor env) = true →
      env.isTransparent (bodyBackgroundColor env) = false →
        c = bodyBackgroundColor env) ∧
    (env.isTransparent (documentBackgroundColor env) = true →
      env.isTransparent (bodyBackgroundColor env) = true →
        c = defaultBackgroundColor env o) := by
  have hc := renderElement_bg_some env o c hbg
  subst hc
  refine ⟨fun hd => ?_, fun hd hb => ?_, fun hd hb => ?_⟩ <;>
    simp [resolveBackgroundColor, hroot, hd] <;> simp [hb]

/-- C4: for a call whose target element is not the document's root
element the resolved background is exactly the base default — the parse
of the user option when it is a color string, the transparent sentinel
when the option is the explicit null, opaque white `0xffffffff` when the
option is unset — and the document's and body's computed backgrounds are
never consulted: replacing them with any values leaves the outcome's
background unchanged. -/
theorem nonroot_background_default (env : Env) (o : Opts) (c : Nat)
    (hroot : env.targetIsDocumentElement = false)
    (hbg : (renderElement env o).bg = some c) :
    c = defaultBackgroundColor env o ∧
    (∀ s, o.backgroundColor = some (some s) → c = env.parseColor s) ∧
    (o.backgroundColor = some none → c = env.transparentColor) ∧
    (o.backgroundColor = none → c = 4294967295) ∧
    (∀ r b, (renderElement
        { env with rootComputedBg := r, bodyComputedBg := b } o).bg = some c) := by
  obtain ⟨h1, h2, h3, h4⟩ := renderElement_bg_isSome env o c hbg
  have hdef : c = defaultBackgroundColor env o := by
    rw [renderElement_bg_some env o c hbg]
    simp [resolveBackgroundColor, hroot]
  refine ⟨hdef, fun s hs => ?_, fun hs => ?_, fun hs => ?_, fun r b => ?_⟩
  · rw [hdef]
    simp [defaultBackgroundColor, hs]
  · rw [hdef]
    simp [defaultBackgroundColor, hs]
  · rw [hdef]
    simp [defaultBackgroundColor, hs]
  · have hbg' := renderElement_bg_of_flags
      { env with rootComputedBg := r, bodyComputedBg := b } o h1 h2 h3 h4
    rw [hbg', hdef]
    have hres : resolveBackgroundColor { env with rootComputedBg := r, bodyComputedBg := b } o
        = defaultBackgroundColor env o := by
      simp [resolveBackgroundColor, defaultBackgroundColor, hroot]
    rw [hres]

/-- C7: a call whose target element has no owning document fails with the
document-precondition error, and one whose owning document has no
attached window fails with the window-precondition error; in both cases
the trace is empty — no run identity, logging sink, resource cache or
frame was created — and no hosting frame is bound. -/
theorem precondition_failure_before_resources (env : Env) (o : Opts)
    (h : env.hasOwnerDocument = false ∨ env.hasDefaultView = false) :
    (env.hasOwnerDocument = false →
      (renderElement env o).result = Except.error RenderError.notAttachedToDocument) ∧
    (env.hasOwnerDocument = true → env.hasDefaultView = false →
      (renderElement env o).result = Except.error RenderError.notAttachedToWindow) ∧
    (renderElement env o).trace = [] ∧
    (renderElement env o).container = none ∧
    (renderElement env o).region = none := by
  rcases h with h | h
  · simp [renderElement, h]
  · cases h1 : env.hasOwnerDocument <;> simp [renderElement, h1, h]

/-- C10: a call whose target element is the body element but not the
document's root element computes its capture region from the whole
document's size (not the element's own bounds), yet resolves its
background as a non-root capture: the base default, with the document's
and body's computed backgrounds not consulted. -/
theorem body_capture_region_and_background (env : Env) (o : Opts)
    (hb : env.isBodyElement = true) (hroot : env.targetIsDocumentElement = false)
    (h1 : env.hasOwnerDocument = true) (h2 : env.hasDefaultView = true) :
    (renderElement env o).region = some env.documentRect ∧
    (∀ c, (renderElement env o).bg = some c → c = defaultBackgroundColor env o) := by
  constructor
  · cases h3 : (clonePhase env o).fastFailed <;> cases h4 : (clonePhase env o).cloneFound <;>
      simp [renderElement, h1, h2, h3, h4, hb]
  · intro c hc
    rw [renderElement_bg_some env o c hc]
    simp [resolveBackgroundColor, hroot]

/-- C5 counterexample: at a concrete fast-path call — the hosting frame
(id 7) is borrowed from the named-frame cache under "cached" — with
`removeContainer` left unset, the call destroys the borrowed frame; the
claim that a call never destroys a borrowed frame, for every value of the
`removeContainer` option, is false. -/
theorem borrowed_frame_destroyed_cex :
    (renderElement baseEnv optsFast).containerBorrowed = true ∧
    (renderElement baseEnv optsFast).container = some ⟨7, true⟩ ∧
    Ev.destroyFrame 7 ∈ (renderElement baseEnv optsFast).trace := by decide

/-- C5 amended: a fast-path call (hosting frame borrowed from the
named-frame cache) that runs to completion destroys the borrowed frame
exactly when the merged `removeContainer` is `true` — which is the
default when the option is absent; the borrowed frame survives only when
`removeContainer` is present as `false` or `undefined`. -/
theorem borrowed_frame_destroy_iff (env : Env) (o : Opts) (f : Frame)
    (hok : (renderElement env o).result = Except.ok ())
    (_hbor : (renderElement env o).containerBorrowed = true)
    (hf : (renderElement env o).container = some f) :
    Ev.destroyFrame f.fid ∈ (renderElement env o).trace ↔
      mergedRemoveContainer o = some true := by
  obtain ⟨h1, h2, h3, h4, heq⟩ := renderElement_ok_spec env o hok
  rw [heq] at hf
  have hfe : (clonePhase env o).container = f := by simpa using hf
  rw [heq]
  rcases clonePhase_tr_cases env o with ht | ht <;> rw [ht] <;>
    simp [mem_preTrace, mem_destroyTrace, mem_saveTrace, hfe]

/-- C6: a call with a render name supplied (a non-empty string) that runs
to completion leaves the named-frame cache holding that name mapped to
the call's hosting frame, regardless of the `removeContainer` option; and
when frame destruction is also requested, the destruction event strictly
precedes the cache store in the trace. -/
theorem renderName_persistence (env : Env) (o : Opts) (n : String) (f : Frame)
    (hn : o.renderName = some n) (hne : n ≠ "")
    (hok : (renderElement env o).result = Except.ok ())
    (hf : (renderElement env o).container = some f) :
    (renderElement env o).cacheAfter n = some f ∧
    Ev.saveIframe n f.fid ∈ (renderElement env o).trace ∧
    (mergedRemoveContainer o = some true →
      ∃ l₁ l₂ l₃, (renderElement env o).trace
        = l₁ ++ Ev.destroyFrame f.fid :: (l₂ ++ Ev.saveIframe n f.fid :: l₃)) := by
  obtain ⟨h1, h2, h3, h4, heq⟩ := renderElement_ok_spec env o hok
  rw [heq] at hf
  have hfe : (clonePhase env o).container = f := by simpa using hf
  refine ⟨?_, ?_, ?_⟩
  · rw [heq]
    simp [cacheAfterFun, hn, hne, hfe]
  · rw [heq]
    simp [mem_preTrace, mem_destroyTrace, mem_saveTrace, hfe, hn, hne]
  · intro hm
    rw [heq]
    refine ⟨preTrace o ++ (clonePhase env o).tr ++ [Ev.renderDone],
      if env.destroyOk then [] else [Ev.logDetachError],
      [Ev.destroyLogger, Ev.destroyCache], ?_⟩
    simp [destroyTrace, saveTrace, hm, hn, hne, hfe]

/-- C8 (code bug): at the concrete failing input — the fast path
qualifies under the cached name but the fast-clone attempt yields no
element — the call fails with the fast-clone error after the resource
cache and logging sink were created under the run identity, yet neither
is ever destroyed: the teardown of lines 210-212 is skipped on this exit
path, so instance-scoped entries remain registered after the call. -/
theorem teardown_gap_on_failure :
    (renderElement envFastFail optsFast).result
        = Except.error RenderError.fastCloneError ∧
    Ev.createLogger ∈ (renderElement envFastFail optsFast).trace ∧
    Ev.createCache ∈ (renderElement envFastFail optsFast).trace ∧
    Ev.destroyLogger ∉ (renderElement envFastFail optsFast).trace ∧
    Ev.destroyCache ∉ (renderElement envFastFail optsFast).trace := by decide

/-- C9 counterexample: at a concrete call whose `removeContainer` key is
present with value `undefined`, the call runs to completion without any
frame-destruction event; the claim that a call with `removeContainer`
unset — absent or undefined — destroys the hosting frame is false. -/
theorem removeContainer_undefined_cex :
    (renderElement baseEnv optsRCundef).result = Except.ok () ∧
    (renderElement baseEnv optsRCundef).trace.all (fun e => !isDestroyFrameEv e)
      = true := by decide

/-- C9 amended: a call that reaches teardown destroys the hosting frame
exactly when the merged `removeContainer` is `true` — explicitly `true`,
or absent and defaulted to `true`; a key present as `undefined` (like an
explicit `false`) does not destroy.  When destruction is requested but
fails because the frame is detached, the non-fatal error is logged and
the call still returns its result. -/
theorem frame_destroy_policy (env : Env) (o : Opts) (f : Frame)
    (hok : (renderElement env o).result = Except.ok ())
    (hf : (renderElement env o).container = some f) :
    (Ev.destroyFrame f.fid ∈ (renderElement env o).trace ↔
      mergedRemoveContainer o = some true) ∧
    (o.removeContainer = none → mergedRemoveContainer o = some true) ∧
    (o.removeContainer = some none → ¬ mergedRemoveContainer o = some true) ∧
    (mergedRemoveContainer o = some true → env.destroyOk = false →
      Ev.logDetachError ∈ (renderElement env o).trace) := by
  obtain ⟨h1, h2, h3, h4, heq⟩ := renderElement_ok_spec env o hok
  rw [heq] at hf
  have hfe : (clonePhase env o).container = f := by simpa using hf
  refine ⟨?_, ?_, ?_, ?_⟩
  · rw [heq]
    rcases clonePhase_tr_cases env o with ht | ht <;> rw [ht] <;>
      simp [mem_preTrace, mem_destroyTrace, mem_saveTrace, hfe]
  · intro hr
    simp [mergedRemoveContainer, hr]
  · intro hr
    simp [mergedRemoveContainer, hr]
  · intro hm hd
    rw [heq]
    simp [mem_preTrace, mem_destroyTrace, mem_saveTrace, hm, hd]

/-- Witness for C1: at the concrete fast-qualifying call the fast
duplication path is attempted. -/
theorem fast_path_decision_witness :
    Ev.fastCloneAttempt ∈ (renderElement baseEnv optsFast).trace :=
  (fast_path_decision baseEnv optsFast rfl rfl).1.mpr
    ⟨⟨"#sel", rfl, by decide⟩, "cached", ⟨7, true⟩, rfl, by decide, by decide, rfl⟩

/-- Witness for C2: at the concrete fast-qualifying call with a failing
fast clone, the call settles with the fast-clone error. -/
theorem fast_clone_failure_no_fallback_witness :
    (renderElement envFastFail optsFast).result
      = Except.error RenderError.fastCloneError :=
  (fast_clone_failure_no_fallback envFastFail optsFast (by decide) rfl).1

/-- Witness for C3: capturing the document root with an opaque root
background (255) resolves the background to the root's value. -/
theorem root_background_cascade_witness :
    (255 : Nat) = documentBackgroundColor envRoot :=
  (root_background_cascade envRoot optsNone 255 rfl (by decide)).1 (by decide)

/-- Witness for C4: a non-root capture with the explicit null background
option resolves to the transparent sentinel. -/
theorem nonroot_background_default_witness :
    (0 : Nat) = baseEnv.transparentColor :=
  (nonroot_background_default baseEnv optsBgNull 0 rfl (by decide)).2.2.1 rfl

/-- Witness for the amended C5: at the concrete fast-path call with
`removeContainer` absent, the borrowed frame (id 7) is destroyed. -/
theorem borrowed_frame_destroy_iff_witness :
    Ev.destroyFrame 7 ∈ (renderElement baseEnv optsFast).trace :=
  (borrowed_frame_destroy_iff baseEnv optsFast ⟨7, true⟩ (by decide) (by decide)
    (by decide)).mpr (by decide)

/-- Witness for C6: the call supplying the render name "fresh" leaves the
cache mapping "fresh" to its hosting frame (id 1). -/
theorem renderName_persistence_witness :
    (renderElement baseEnv optsName).cacheAfter "fresh" = some ⟨1, true⟩ :=
  (renderName_persistence baseEnv optsName "fresh" ⟨1, true⟩ rfl (by decide) (by decide)
    (by decide)).1

/-- Witness for C7: the concrete detached call produces an empty trace —
no resource was created. -/
theorem precondition_failure_witness :
    (renderElement envDetached optsNone).trace = [] :=
  (precondition_failure_before_resources envDetached optsNone (Or.inl rfl)).2.2.1

/-- Witness for the amended C9: at the concrete call with
`removeContainer` absent, the hosting frame (id 1) is destroyed. -/
theorem frame_destroy_policy_witness :
    Ev.destroyFrame 1 ∈ (renderElement baseEnv optsNone).trace :=
  ((frame_destroy_policy baseEnv optsNone ⟨1, true⟩ (by decide) (by decide)).1).mpr
    (by decide)

/-- Witness for C10: the concrete body-element capture takes its region
from the document's size. -/
theorem body_capture_witness :
    (renderElement envBody optsNone).region = some envBody.documentRect :=
  (body_capture_region_and_background envBody optsNone rfl rfl rfl rfl).1

end Html2Canvas
